import Mathlib

/-!
Shallow embedding of `src/app.py`, the Mergington High School activity
signup API.  Python dicts become association lists, the in-memory
`logged_in_teachers` set becomes a `Finset String`, and each FastAPI
endpoint becomes a pure state-passing function returning an `HttpResult`
together with the new application state.  `HTTPException` raises are
modelled as `HttpResult.error status detail`; a normal return is
`HttpResult.ok message` (HTTP 200).
-/

/-- One record of the in-memory activity database (`activities` in
`app.py`): description, schedule, capacity, and the ordered participant
list. -/
structure ActivityRecord where
  description : String
  schedule : String
  max_participants : Nat
  participants : List String
deriving DecidableEq, Repr

/-- The activity registry: the Python dict `activities`, as an
association list from activity name to record (dict keys are unique;
all our lemmas are stated via first-match lookup). -/
abbrev Registry := List (String × ActivityRecord)

/-- One entry of `teachers.json` as consumed by `load_teachers()`. -/
structure Teacher where
  username : String
  password : String
deriving DecidableEq, Repr

/-- The process-global mutable state of `app.py`: the activity registry
and the `logged_in_teachers` session set. -/
structure AppState where
  activities : Registry
  sessions : Finset String
deriving DecidableEq

/-- Outcome of an endpoint call: `ok message` is a normal 200 JSON
response, `error status detail` is an `HTTPException`/`JSONResponse`
failure. -/
inductive HttpResult where
  | ok (message : String)
  | error (status : Nat) (detail : String)
deriving DecidableEq, Repr

/-- HTTP status code of a result (FastAPI returns 200 for a plain
return value). -/
def HttpResult.status : HttpResult → Nat
  | .ok _ => 200
  | .error s _ => s

/-- Dict lookup `activities[name]` / `name in activities`: first pair
whose key equals `name`. -/
def lookupActivity : Registry → String → Option ActivityRecord
  | [], _ => none
  | (k, v) :: rest, name => if k = name then some v else lookupActivity rest name

/-- In-place mutation of `activities[name]` (the Python code mutates
`activity["participants"]` through the dict reference): replace the
record stored under `name`, keep everything else. -/
def updateActivity : Registry → String → ActivityRecord → Registry
  | [], _, _ => []
  | (k, v) :: rest, name, r =>
    if k = name then (k, r) :: updateActivity rest name r
    else (k, v) :: updateActivity rest name r

/-- The credential-matching loop shared verbatim by
`authenticate_teacher` and `require_teacher`: scan the teacher list,
return the request username on the first entry whose username matches
exactly and whose password matches (`secrets.compare_digest` is
functionally string equality). -/
def findTeacher : List Teacher → String → String → Option String
  | [], _, _ => none
  | t :: ts, username, password =>
    if username = t.username ∧ password = t.password then some username
    else findTeacher ts username password

/-- Python `str.lower()` restricted to what the scheme check needs:
character-wise ASCII lower-casing. -/
def strLower (s : String) : String := String.mk (s.data.map Char.toLower)

/-- Python `str.partition(sep)` for a one-character separator, on char
lists: split at the first occurrence of `c`; when `c` is absent the
whole input is the head and the tail is empty, exactly as in Python. -/
def partitionChars (c : Char) : List Char → List Char × List Char
  | [] => ([], [])
  | x :: xs =>
    if x = c then ([], xs)
    else (x :: (partitionChars c xs).1, (partitionChars c xs).2)

/-- `s.partition(c)` projected to the (head, tail) components the code
uses (the middle component is always discarded by `app.py`). -/
def partitionStr (s : String) (c : Char) : String × String :=
  let p := partitionChars c s.data
  (String.mk p.1, String.mk p.2)

/-- Value of one character of the standard base64 alphabet, `none` for
anything else (including the padding character). -/
def b64val (c : Char) : Option Nat :=
  if 'A' ≤ c ∧ c ≤ 'Z' then some (c.toNat - 65)
  else if 'a' ≤ c ∧ c ≤ 'z' then some (c.toNat - 97 + 26)
  else if '0' ≤ c ∧ c ≤ '9' then some (c.toNat - 48 + 52)
  else if c = '+' then some 62
  else if c = '/' then some 63
  else none

/-- `binascii.a2b_base64` in non-strict mode, which is what
`base64.b64decode(param)` calls with its default `validate=False`:
characters outside the base64 alphabet are DISCARDED, not rejected
(so `b64decode("%%%%") = b""`); an `=` seen while two or three data
characters are pending completes the quad and ends the input; anything
after that is ignored; a final incomplete quad of one, two or three
data characters raises `binascii.Error` (caught by `require_teacher`).
`quad_pos` counts the data characters pending in the current quad,
`leftchar` holds their carried-over bits, `pads` the pad characters
seen in the current quad (reset by a data character). -/
def b64loop : List Char → Nat → Nat → Nat → Option (List Nat)
  | [], quad_pos, _, _ => if quad_pos = 0 then some [] else none
  | c :: rest, quad_pos, leftchar, pads =>
    if c = '=' then
      if 2 ≤ quad_pos ∧ 4 ≤ quad_pos + (pads + 1) then some []
      else b64loop rest quad_pos leftchar (if 2 ≤ quad_pos then pads + 1 else pads)
    else
      match b64val c with
      | none => b64loop rest quad_pos leftchar pads
      | some v =>
        match quad_pos with
        | 0 => b64loop rest 1 v 0
        | 1 => (b64loop rest 2 (v % 16) 0).map fun bs => (leftchar * 4 + v / 16) :: bs
        | 2 => (b64loop rest 3 (v % 4) 0).map fun bs => (leftchar * 16 + v / 4) :: bs
        | _ => (b64loop rest 0 0 0).map fun bs => (leftchar * 64 + v) :: bs

/-- `base64.b64decode(param)` down to bytes: the `str` argument is first
encoded to ASCII (a non-ASCII character raises, caught by
`require_teacher`), then run through the non-strict `a2b_base64`
loop. -/
def b64decodeBytes (cs : List Char) : Option (List Nat) :=
  if cs.all (fun c => c.toNat < 128) then b64loop cs 0 0 0 else none

/-- `bytes.decode()` (strict UTF-8) from a byte list to a code-point
list: rejects invalid leads, truncated sequences, overlong encodings,
surrogates, and code points beyond U+10FFFF, as CPython does. -/
def utf8Decode : List Nat → Option (List Char)
  | [] => some []
  | b :: rest =>
    if b < 128 then
      (utf8Decode rest).map fun cs => Char.ofNat b :: cs
    else if b < 194 then none
    else if b < 224 then
      match rest with
      | b2 :: r =>
        if 128 ≤ b2 ∧ b2 < 192 then
          (utf8Decode r).map fun cs => Char.ofNat ((b - 192) * 64 + (b2 - 128)) :: cs
        else none
      | [] => none
    else if b < 240 then
      match rest with
      | b2 :: b3 :: r =>
        if (128 ≤ b2 ∧ b2 < 192) ∧ (128 ≤ b3 ∧ b3 < 192) then
          let cp := (b - 224) * 4096 + (b2 - 128) * 64 + (b3 - 128)
          if 2048 ≤ cp ∧ ¬ (55296 ≤ cp ∧ cp ≤ 57343) then
            (utf8Decode r).map fun cs => Char.ofNat cp :: cs
          else none
        else none
      | _ => none
    else if b < 245 then
      match rest with
      | b2 :: b3 :: b4 :: r =>
        if (128 ≤ b2 ∧ b2 < 192) ∧ (128 ≤ b3 ∧ b3 < 192) ∧ (128 ≤ b4 ∧ b4 < 192) then
          let cp := (b - 240) * 262144 + (b2 - 128) * 4096 + (b3 - 128) * 64 + (b4 - 128)
          if 65536 ≤ cp ∧ cp < 1114112 then
            (utf8Decode r).map fun cs => Char.ofNat cp :: cs
          else none
        else none
      | _ => none
    else none

/-- `base64.b64decode(param).decode()` as one fallible step, matching
the `try` block of `require_teacher`. -/
def b64decodeStr (s : String) : Option String :=
  match b64decodeBytes s.data with
  | none => none
  | some bs =>
    match utf8Decode bs with
    | none => none
    | some cs => some (String.mk cs)

/-- Auth Path B, `require_teacher(request)`: read the raw
`Authorization` header (`none` when absent; Python's `if not auth` also
treats the empty string as absent), split scheme from parameter at the
first space, demand a case-insensitive `basic` scheme, base64+UTF-8
decode the parameter, split it `username:password` at the first colon,
then run the credential loop. Every failure is an HTTP 401 with the
detail raised by the corresponding `HTTPException`. -/
def require_teacher (teachers : List Teacher) (header : Option String) :
    Except (Nat × String) String :=
  match header with
  | none => .error (401, "Not authenticated")
  | some auth =>
    if auth = "" then .error (401, "Not authenticated")
    else if strLower (partitionStr auth ' ').1 ≠ "basic" then
      .error (401, "Invalid auth scheme")
    else
      match b64decodeStr (partitionStr auth ' ').2 with
      | none => .error (401, "Invalid auth header")
      | some decoded =>
        match findTeacher teachers (partitionStr decoded ':').1 (partitionStr decoded ':').2 with
        | some u => .ok u
        | none => .error (401, "Invalid credentials")

/-- Auth Path A, `authenticate_teacher(credentials)`: the framework has
already parsed the Basic header into a username/password pair; run the
credential loop, and on success add the username to
`logged_in_teachers` before returning it.  On failure raise 401. -/
def authenticate_teacher (teachers : List Teacher) (username password : String)
    (sessions : Finset String) : Except (Nat × String) String × Finset String :=
  match findTeacher teachers username password with
  | some u => (.ok u, insert u sessions)
  | none => (.error (401, "Invalid credentials"), sessions)

/-- `POST /activities/{activity_name}/signup`: Path B auth first, then
404 for an unknown activity, 400 for a duplicate email, otherwise
append the email to the participant list and return the confirmation
message. -/
def signup_for_activity (teachers : List Teacher) (activity_name email : String)
    (header : Option String) (st : AppState) : HttpResult × AppState :=
  match require_teacher teachers header with
  | .error e => (.error e.1 e.2, st)
  | .ok teacher =>
    match lookupActivity st.activities activity_name with
    | none => (.error 404 "Activity not found", st)
    | some activity =>
      if email ∈ activity.participants then
        (.error 400 "Student is already signed up", st)
      else
        let updated := { activity with participants := activity.participants ++ [email] }
        (.ok s!"Teacher {teacher} signed up {email} for {activity_name}",
         { st with activities := updateActivity st.activities activity_name updated })

/-- `DELETE /activities/{activity_name}/unregister`: Path B auth first,
then 404 for an unknown activity, 400 when the email is not a
participant, otherwise `list.remove` (erase the first occurrence) and
return the confirmation message. -/
def unregister_from_activity (teachers : List Teacher) (activity_name email : String)
    (header : Option String) (st : AppState) : HttpResult × AppState :=
  match require_teacher teachers header with
  | .error e => (.error e.1 e.2, st)
  | .ok teacher =>
    match lookupActivity st.activities activity_name with
    | none => (.error 404 "Activity not found", st)
    | some activity =>
      if email ∉ activity.participants then
        (.error 400 "Student is not signed up for this activity", st)
      else
        let updated := { activity with participants := activity.participants.erase email }
        (.ok s!"Teacher {teacher} unregistered {email} from {activity_name}",
         { st with activities := updateActivity st.activities activity_name updated })

/-- `POST /login`: Path A auth (which updates the session set), then a
confirmation message. -/
def login (teachers : List Teacher) (username password : String)
    (st : AppState) : HttpResult × AppState :=
  match authenticate_teacher teachers username password st.sessions with
  | (.error e, s) => (.error e.1 e.2, { st with sessions := s })
  | (.ok u, s) => (.ok s!"Logged in as {u}", { st with sessions := s })

/-- `POST /logout`: the password is parsed but never checked; if the
claimed username is in `logged_in_teachers` remove it and confirm,
otherwise reply 400 "Not logged in". -/
def logout (username password : String) (st : AppState) : HttpResult × AppState :=
  if username ∈ st.sessions then
    (.ok s!"Logged out {username}", { st with sessions := st.sessions.erase username })
  else
    (.error 400 "Not logged in", st)

/-- The nine-entry initial activity database of `app.py`. -/
def activities0 : Registry :=
  [("Chess Club",
    { description := "Learn strategies and compete in chess tournaments",
      schedule := "Fridays, 3:30 PM - 5:00 PM",
      max_participants := 12,
      participants := ["michael@mergington.edu", "daniel@mergington.edu"] }),
   ("Programming Class",
    { description := "Learn programming fundamentals and build software projects",
      schedule := "Tuesdays and Thursdays, 3:30 PM - 4:30 PM",
      max_participants := 20,
      participants := ["emma@mergington.edu", "sophia@mergington.edu"] }),
   ("Gym Class",
    { description := "Physical education and sports activities",
      schedule := "Mondays, Wednesdays, Fridays, 2:00 PM - 3:00 PM",
      max_participants := 30,
      participants := ["john@mergington.edu", "olivia@mergington.edu"] }),
   ("Soccer Team",
    { description := "Join the school soccer team and compete in matches",
      schedule := "Tuesdays and Thursdays, 4:00 PM - 5:30 PM",
      max_participants := 22,
      participants := ["liam@mergington.edu", "noah@mergington.edu"] }),
   ("Basketball Team",
    { description := "Practice and play basketball with the school team",
      schedule := "Wednesdays and Fridays, 3:30 PM - 5:00 PM",
      max_participants := 15,
      participants := ["ava@mergington.edu", "mia@mergington.edu"] }),
   ("Art Club",
    { description := "Explore your creativity through painting and drawing",
      schedule := "Thursdays, 3:30 PM - 5:00 PM",
      max_participants := 15,
      participants := ["amelia@mergington.edu", "harper@mergington.edu"] }),
   ("Drama Club",
    { description := "Act, direct, and produce plays and performances",
      schedule := "Mondays and Wednesdays, 4:00 PM - 5:30 PM",
      max_participants := 20,
      participants := ["ella@mergington.edu", "scarlett@mergington.edu"] }),
   ("Math Club",
    { description := "Solve challenging problems and participate in math competitions",
      schedule := "Tuesdays, 3:30 PM - 4:30 PM",
      max_participants := 10,
      participants := ["james@mergington.edu", "benjamin@mergington.edu"] }),
   ("Debate Team",
    { description := "Develop public speaking and argumentation skills",
      schedule := "Fridays, 4:00 PM - 5:30 PM",
      max_participants := 12,
      participants := ["charlotte@mergington.edu", "henry@mergington.edu"] })]

/-- Process-start state: the nine activities and an empty session set. -/
def st0 : AppState := ⟨activities0, ∅⟩

deriving instance DecidableEq for Except

/-- Teacher store used by concrete witnesses. -/
def teachers0 : List Teacher := [⟨"alice", "secret"⟩]

/-- A well-formed Basic header for `alice:secret`
(`base64("alice:secret") = "YWxpY2U6c2VjcmV0"`). -/
def header0 : Option String := some "Basic YWxpY2U6c2VjcmV0"

/-- The initial Chess Club record, for concrete witnesses. -/
def chessClub : ActivityRecord :=
  { description := "Learn strategies and compete in chess tournaments",
    schedule := "Fridays, 3:30 PM - 5:00 PM",
    max_participants := 12,
    participants := ["michael@mergington.edu", "daniel@mergington.edu"] }

/-! ### Helper lemmas about the registry embedding -/

theorem strMkData (s : String) : String.mk s.data = s := rfl

theorem strDataAppend (a b : String) : (a ++ b).data = a.data ++ b.data := by
  cases a; cases b; rfl

theorem lookupActivity_updateActivity_self (acts : Registry) (name : String)
    (a r : ActivityRecord) (h : lookupActivity acts name = some a) :
    lookupActivity (updateActivity acts name r) name = some r := by
  induction acts with
  | nil => simp [lookupActivity] at h
  | cons q rest ih =>
    obtain ⟨k, v⟩ := q
    by_cases hk : k = name
    · simp [lookupActivity, updateActivity, hk]
    · simp only [lookupActivity, updateActivity, if_neg hk] at h ⊢
      exact ih h

theorem lookupActivity_updateActivity_ne (acts : Registry) (name k : String)
    (r : ActivityRecord) (hk : k ≠ name) :
    lookupActivity (updateActivity acts name r) k = lookupActivity acts k := by
  induction acts with
  | nil => simp [updateActivity]
  | cons q rest ih =>
    obtain ⟨k', v⟩ := q
    by_cases hk' : k' = name
    · have : k' ≠ k := fun he => hk (he ▸ hk')
      simp only [updateActivity, if_pos hk', lookupActivity, if_neg this]
      exact ih
    · simp only [updateActivity, if_neg hk', lookupActivity]
      by_cases he : k' = k
      · simp [he]
      · simp only [if_neg he]
        exact ih

theorem lookupActivity_mem (acts : Registry) (name : String) (a : ActivityRecord)
    (h : lookupActivity acts name = some a) : (name, a) ∈ acts := by
  induction acts with
  | nil => simp [lookupActivity] at h
  | cons q rest ih =>
    obtain ⟨k, v⟩ := q
    by_cases hk : k = name
    · subst hk
      simp [lookupActivity] at h
      subst h
      exact List.mem_cons_self _ _
    · simp only [lookupActivity, if_neg hk] at h
      exact List.mem_cons_of_mem _ (ih h)

theorem mem_updateActivity (acts : Registry) (name : String) (r : ActivityRecord)
    (p : String × ActivityRecord) (h : p ∈ updateActivity acts name r) :
    p.2 = r ∨ p ∈ acts := by
  induction acts with
  | nil => simp [updateActivity] at h
  | cons q rest ih =>
    obtain ⟨k, v⟩ := q
    by_cases hk : k = name
    · simp only [updateActivity, if_pos hk, List.mem_cons] at h
      rcases h with h | h
      · left; rw [h]
      · rcases ih h with h' | h'
        · exact Or.inl h'
        · exact Or.inr (List.mem_cons_of_mem _ h')
    · simp only [updateActivity, if_neg hk, List.mem_cons] at h
      rcases h with h | h
      · right; rw [h]; exact List.mem_cons_self _ _
      · rcases ih h with h' | h'
        · exact Or.inl h'
        · exact Or.inr (List.mem_cons_of_mem _ h')

theorem partitionChars_split (c : Char) (l1 l2 : List Char) (h : c ∉ l1) :
    partitionChars c (l1 ++ c :: l2) = (l1, l2) := by
  induction l1 with
  | nil => simp [partitionChars]
  | cons x xs ih =>
    have hxc : x ≠ c := fun he => h (he ▸ List.mem_cons_self x xs)
    have hx : c ∉ xs := fun hm => h (List.mem_cons_of_mem _ hm)
    simp only [List.cons_append, partitionChars, if_neg hxc, List.append_eq, ih hx]

/-! ### Claims -/

/-- Claim C1: for every registry state, every activity present in the
registry, and every email not in that activity's participants, a signup
with valid Path B teacher credentials returns 200 and appends the email
exactly once, at the end of the participants list. -/
theorem signup_appends_new_email (teachers : List Teacher) (name email : String)
    (header : Option String) (st : AppState) (t : String) (a : ActivityRecord)
    (hauth : require_teacher teachers header = .ok t)
    (hact : lookupActivity st.activities name = some a)
    (hmem : email ∉ a.participants) :
    (signup_for_activity teachers name email header st).1 =
      .ok s!"Teacher {t} signed up {email} for {name}"
  ∧ (signup_for_activity teachers name email header st).1.status = 200
  ∧ lookupActivity (signup_for_activity teachers name email header st).2.activities name =
      some { a with participants := a.participants ++ [email] } := by
  have hrun : signup_for_activity teachers name email header st =
      (.ok s!"Teacher {t} signed up {email} for {name}",
       { st with activities := (updateActivity st.activities name
           { a with participants := a.participants ++ [email] }) }) := by
    simp only [signup_for_activity, hauth, hact, if_neg hmem]
  rw [hrun]
  exact ⟨rfl, rfl, lookupActivity_updateActivity_self _ _ _ _ hact⟩

/-- Concrete run of C1: alice signs isabella up for Chess Club from the
initial state. -/
theorem signup_appends_new_email_witness :
    require_teacher teachers0 header0 = .ok "alice"
  ∧ lookupActivity st0.activities "Chess Club" = some chessClub
  ∧ "isabella@mergington.edu" ∉ chessClub.participants
  ∧ (signup_for_activity teachers0 "Chess Club" "isabella@mergington.edu" header0 st0).1 =
      .ok "Teacher alice signed up isabella@mergington.edu for Chess Club"
  ∧ (signup_for_activity teachers0 "Chess Club" "isabella@mergington.edu" header0 st0).1.status = 200
  ∧ lookupActivity
      (signup_for_activity teachers0 "Chess Club" "isabella@mergington.edu" header0 st0).2.activities
      "Chess Club" =
      some { chessClub with
             participants := chessClub.participants ++ ["isabella@mergington.edu"] } := by
  refine ⟨by decide, by decide, by decide, ?_⟩
  exact signup_appends_new_email teachers0 "Chess Club" "isabella@mergington.edu" header0 st0
    "alice" chessClub (by decide) (by decide) (by decide)

/-- Claim C2: signing up an email already in the activity's participants
with valid Path B teacher credentials returns 400 and leaves the whole
state unchanged. -/
theorem signup_duplicate_rejected (teachers : List Teacher) (name email : String)
    (header : Option String) (st : AppState) (t : String) (a : ActivityRecord)
    (hauth : require_teacher teachers header = .ok t)
    (hact : lookupActivity st.activities name = some a)
    (hmem : email ∈ a.participants) :
    (signup_for_activity teachers name email header st).1 =
      .error 400 "Student is already signed up"
  ∧ (signup_for_activity teachers name email header st).2 = st := by
  have hrun : signup_for_activity teachers name email header st =
      (.error 400 "Student is already signed up", st) := by
    simp only [signup_for_activity, hauth, hact, if_pos hmem]
  rw [hrun]
  exact ⟨rfl, rfl⟩

/-- Concrete run of C2: signing up michael (already present) for Chess
Club returns 400 and changes nothing. -/
theorem signup_duplicate_rejected_witness :
    require_teacher teachers0 header0 = .ok "alice"
  ∧ lookupActivity st0.activities "Chess Club" = some chessClub
  ∧ "michael@mergington.edu" ∈ chessClub.participants
  ∧ (signup_for_activity teachers0 "Chess Club" "michael@mergington.edu" header0 st0).1 =
      .error 400 "Student is already signed up"
  ∧ (signup_for_activity teachers0 "Chess Club" "michael@mergington.edu" header0 st0).2 = st0 := by
  refine ⟨by decide, by decide, by decide, ?_⟩
  exact signup_duplicate_rejected teachers0 "Chess Club" "michael@mergington.edu" header0 st0
    "alice" chessClub (by decide) (by decide) (by decide)

/-- Claim C3: with valid Path B credentials and an existing activity,
unregister removes exactly the first matching entry and returns 200 when
the email is a participant, returns 400 leaving the state unchanged when
it is not, and hence (starting from a duplicate-free list containing the
email) two successive unregisters yield 200 then 400. -/
theorem unregister_first_match (teachers : List Teacher) (name email : String)
    (header : Option String) (st : AppState) (t : String) (a : ActivityRecord)
    (hauth : require_teacher teachers header = .ok t)
    (hact : lookupActivity st.activities name = some a) :
    (email ∈ a.participants →
        (unregister_from_activity teachers name email header st).1 =
          .ok s!"Teacher {t} unregistered {email} from {name}"
      ∧ (unregister_from_activity teachers name email header st).1.status = 200
      ∧ lookupActivity (unregister_from_activity teachers name email header st).2.activities name =
          some { a with participants := a.participants.erase email })
  ∧ (email ∉ a.participants →
        (unregister_from_activity teachers name email header st).1 =
          .error 400 "Student is not signed up for this activity"
      ∧ (unregister_from_activity teachers name email header st).2 = st)
  ∧ (email ∈ a.participants → a.participants.Nodup →
        (unregister_from_activity teachers name email header st).1.status = 200
      ∧ (unregister_from_activity teachers name email header
           (unregister_from_activity teachers name email header st).2).1 =
          .error 400 "Student is not signed up for this activity") := by
  refine ⟨fun hm => ?_, fun hm => ?_, fun hm hnd => ?_⟩
  · have hrun : unregister_from_activity teachers name email header st =
        (.ok s!"Teacher {t} unregistered {email} from {name}",
         { st with activities := (updateActivity st.activities name
             { a with participants := a.participants.erase email }) }) := by
      simp only [unregister_from_activity, hauth, hact, if_neg (not_not_intro hm)]
    rw [hrun]
    exact ⟨rfl, rfl, lookupActivity_updateActivity_self _ _ _ _ hact⟩
  · have hrun : unregister_from_activity teachers name email header st =
        (.error 400 "Student is not signed up for this activity", st) := by
      simp only [unregister_from_activity, hauth, hact, if_pos hm]
    rw [hrun]
    exact ⟨rfl, rfl⟩
  · have hrun : unregister_from_activity teachers name email header st =
        (.ok s!"Teacher {t} unregistered {email} from {name}",
         { st with activities := (updateActivity st.activities name
             { a with participants := a.participants.erase email }) }) := by
      simp only [unregister_from_activity, hauth, hact, if_neg (not_not_intro hm)]
    have h1 : lookupActivity (updateActivity st.activities name
        { a with participants := a.participants.erase email }) name =
        some { a with participants := a.participants.erase email } :=
      lookupActivity_updateActivity_self _ _ _ _ hact
    have hnm : email ∉ a.participants.erase email := by
      intro hc
      exact absurd rfl (hnd.mem_erase_iff.mp hc).1
    constructor
    · rw [hrun]
      rfl
    · rw [hrun]
      have hrun2 : unregister_from_activity teachers name email header
          { st with activities := (updateActivity st.activities name
              { a with participants := a.participants.erase email }) } =
          (.error 400 "Student is not signed up for this activity",
           { st with activities := (updateActivity st.activities name
               { a with participants := a.participants.erase email }) }) := by
        simp only [unregister_from_activity, hauth, h1, if_pos hnm]
      rw [hrun2]

/-- Concrete run of C3: unregistering michael from Chess Club twice
yields 200 then 400. -/
theorem unregister_first_match_witness :
    require_teacher teachers0 header0 = .ok "alice"
  ∧ lookupActivity st0.activities "Chess Club" = some chessClub
  ∧ "michael@mergington.edu" ∈ chessClub.participants
  ∧ chessClub.participants.Nodup
  ∧ ((unregister_from_activity teachers0 "Chess Club" "michael@mergington.edu" header0 st0).1.status = 200
    ∧ (unregister_from_activity teachers0 "Chess Club" "michael@mergington.edu" header0
         (unregister_from_activity teachers0 "Chess Club" "michael@mergington.edu" header0 st0).2).1 =
        .error 400 "Student is not signed up for this activity") := by
  refine ⟨by decide, by decide, by decide, by decide, ?_⟩
  exact (unregister_first_match teachers0 "Chess Club" "michael@mergington.edu" header0 st0
    "alice" chessClub (by decide) (by decide)).2.2 (by decide) (by decide)

/-- Claim C4 fails as stated: `require_teacher` runs before the registry
lookup, so a request for an unknown activity with missing (or invalid)
credentials gets 401, not 404.  Concretely: "Nonexistent Club" is not in
the initial registry, yet a signup and an unregister with no
Authorization header both return 401. -/
theorem unknown_activity_needs_auth_first :
    lookupActivity st0.activities "Nonexistent Club" = none
  ∧ (signup_for_activity teachers0 "Nonexistent Club" "x@mergington.edu" none st0).1 =
      .error 401 "Not authenticated"
  ∧ (signup_for_activity teachers0 "Nonexistent Club" "x@mergington.edu" none st0).1.status ≠ 404
  ∧ (unregister_from_activity teachers0 "Nonexistent Club" "x@mergington.edu" none st0).1 =
      .error 401 "Not authenticated"
  ∧ (unregister_from_activity teachers0 "Nonexistent Club" "x@mergington.edu" none st0).1.status ≠ 404 := by
  decide

/-- Claim C4 amended: for every activity name not present in the
registry, a signup or unregister carrying valid Path B teacher
credentials returns 404 (whatever valid credentials were supplied) and
leaves the state unchanged. -/
theorem unknown_activity_404 (teachers : List Teacher) (name email : String)
    (header : Option String) (st : AppState) (t : String)
    (hauth : require_teacher teachers header = .ok t)
    (hact : lookupActivity st.activities name = none) :
    (signup_for_activity teachers name email header st).1 = .error 404 "Activity not found"
  ∧ (signup_for_activity teachers name email header st).2 = st
  ∧ (unregister_from_activity teachers name email header st).1 = .error 404 "Activity not found"
  ∧ (unregister_from_activity teachers name email header st).2 = st := by
  have h1 : signup_for_activity teachers name email header st =
      (.error 404 "Activity not found", st) := by
    simp only [signup_for_activity, hauth, hact]
  have h2 : unregister_from_activity teachers name email header st =
      (.error 404 "Activity not found", st) := by
    simp only [unregister_from_activity, hauth, hact]
  rw [h1, h2]
  exact ⟨rfl, rfl, rfl, rfl⟩

/-- Concrete run of the amended C4: valid credentials, unknown club. -/
theorem unknown_activity_404_witness :
    require_teacher teachers0 header0 = .ok "alice"
  ∧ lookupActivity st0.activities "Nonexistent Club" = none
  ∧ (signup_for_activity teachers0 "Nonexistent Club" "x@mergington.edu" header0 st0).1 =
      .error 404 "Activity not found"
  ∧ (signup_for_activity teachers0 "Nonexistent Club" "x@mergington.edu" header0 st0).2 = st0
  ∧ (unregister_from_activity teachers0 "Nonexistent Club" "x@mergington.edu" header0 st0).1 =
      .error 404 "Activity not found"
  ∧ (unregister_from_activity teachers0 "Nonexistent Club" "x@mergington.edu" header0 st0).2 = st0 := by
  refine ⟨by decide, by decide, ?_⟩
  have h := unknown_activity_404 teachers0 "Nonexistent Club" "x@mergington.edu" header0 st0
    "alice" (by decide) (by decide)
  exact ⟨h.1, h.2.1, h.2.2.1, h.2.2.2⟩

/-- Claim C5: signup performs no capacity check: even when the
participants list is already at or above `max_participants`, a validly
authenticated signup of a fresh email succeeds with 200 and appends the
email. -/
theorem signup_never_checks_capacity (teachers : List Teacher) (name email : String)
    (header : Option String) (st : AppState) (t : String) (a : ActivityRecord)
    (hauth : require_teacher teachers header = .ok t)
    (hact : lookupActivity st.activities name = some a)
    (hmem : email ∉ a.participants)
    (hcap : a.max_participants ≤ a.participants.length) :
    (signup_for_activity teachers name email header st).1 =
      .ok s!"Teacher {t} signed up {email} for {name}"
  ∧ (signup_for_activity teachers name email header st).1.status = 200
  ∧ lookupActivity (signup_for_activity teachers name email header st).2.activities name =
      some { a with participants := a.participants ++ [email] } := by
  have hrun : signup_for_activity teachers name email header st =
      (.ok s!"Teacher {t} signed up {email} for {name}",
       { st with activities := (updateActivity st.activities name
           { a with participants := a.participants ++ [email] }) }) := by
    simp only [signup_for_activity, hauth, hact, if_neg hmem]
  rw [hrun]
  exact ⟨rfl, rfl, lookupActivity_updateActivity_self _ _ _ _ hact⟩

/-- An over-capacity activity for the C5 witness: capacity 1 with two
participants already. -/
def tinyClub : ActivityRecord :=
  { description := "tiny", schedule := "never", max_participants := 1,
    participants := ["a@mergington.edu", "b@mergington.edu"] }

/-- Concrete run of C5: Tiny Club is over capacity (2 ≥ 1) and the
signup still succeeds. -/
theorem signup_never_checks_capacity_witness :
    require_teacher teachers0 header0 = .ok "alice"
  ∧ lookupActivity [("Tiny Club", tinyClub)] "Tiny Club" = some tinyClub
  ∧ "c@mergington.edu" ∉ tinyClub.participants
  ∧ tinyClub.max_participants ≤ tinyClub.participants.length
  ∧ (signup_for_activity teachers0 "Tiny Club" "c@mergington.edu" header0
       ⟨[("Tiny Club", tinyClub)], ∅⟩).1.status = 200
  ∧ lookupActivity (signup_for_activity teachers0 "Tiny Club" "c@mergington.edu" header0
       ⟨[("Tiny Club", tinyClub)], ∅⟩).2.activities "Tiny Club" =
      some { tinyClub with
             participants := tinyClub.participants ++ ["c@mergington.edu"] } := by
  refine ⟨by decide, by decide, by decide, by decide, ?_⟩
  have h := signup_never_checks_capacity teachers0 "Tiny Club" "c@mergington.edu" header0
    ⟨[("Tiny Club", tinyClub)], ∅⟩ "alice" tinyClub (by decide) (by decide) (by decide) (by decide)
  exact ⟨h.2.1, h.2.2⟩

/-- Claim C6 fails as stated: the two auth paths need not agree for
every credential pair.  With credential store `[{username := "a:b",
password := "c"}]`, Path A accepts the pair `("a:b", "c")`, while Path B
given the well-formed Basic header encoding `"a:b" ++ ":" ++ "c"`
(base64 `"YTpiOmM="` decodes to `"a:b:c"`) splits at the FIRST colon
into `("a", "b:c")` and rejects with 401. -/
theorem path_a_b_disagree_on_colon_username :
    (authenticate_teacher [⟨"a:b", "c"⟩] "a:b" "c" ∅).1 = .ok "a:b"
  ∧ b64decodeStr "YTpiOmM=" = some "a:b:c"
  ∧ ("a:b" ++ ":" ++ "c" : String) = "a:b:c"
  ∧ require_teacher [⟨"a:b", "c"⟩] (some ("Basic " ++ "YTpiOmM=")) =
      .error (401, "Invalid credentials") := by
  decide

/-- Claim C6 amended: for every credential store and every
(username, password) pair whose username contains no colon, Path A and
Path B (on a well-formed Basic header whose payload decodes to
`username:password`) agree exactly — same accept/reject decision and,
on acceptance, the same returned username. -/
theorem path_a_b_agree_colon_free (teachers : List Teacher) (u p param : String)
    (sessions : Finset String)
    (hu : ':' ∉ u.data)
    (hdec : b64decodeStr param = some (u ++ ":" ++ p)) :
    require_teacher teachers (some ("Basic " ++ param)) =
      (authenticate_teacher teachers u p sessions).1 := by
  have hdata : ("Basic " ++ param).data = 'B' :: 'a' :: 's' :: 'i' :: 'c' :: ' ' :: param.data := by
    rw [strDataAppend]
    rfl
  have hne : ("Basic " ++ param) ≠ "" := by
    intro h
    have h2 := congrArg String.data h
    rw [hdata] at h2
    simp at h2
  have hpart : partitionChars ' ' (("Basic " ++ param).data) =
      (['B', 'a', 's', 'i', 'c'], param.data) := by
    rw [hdata]
    simp [partitionChars]
  have hscheme : strLower (partitionStr ("Basic " ++ param) ' ').1 = "basic" := by
    simp only [partitionStr, hpart]
    decide
  have hparam : (partitionStr ("Basic " ++ param) ' ').2 = param := by
    simp only [partitionStr, hpart]
  have hcolon : partitionStr (u ++ ":" ++ p) ':' = (u, p) := by
    have hd : (u ++ ":" ++ p).data = u.data ++ ':' :: p.data := by
      rw [strDataAppend, strDataAppend]
      simp
    simp only [partitionStr, hd, partitionChars_split ':' u.data p.data hu]
  cases hf : findTeacher teachers u p <;>
    simp only [require_teacher, authenticate_teacher, if_neg hne,
      if_neg (not_not_intro hscheme), hparam, hdec, hcolon, hf]

/-- Concrete run of the amended C6: `alice` (no colon) with password
`secret`; both paths accept and return `alice`. -/
theorem path_a_b_agree_colon_free_witness :
    ':' ∉ ("alice" : String).data
  ∧ b64decodeStr "YWxpY2U6c2VjcmV0" = some ("alice" ++ ":" ++ "secret")
  ∧ require_teacher teachers0 (some ("Basic " ++ "YWxpY2U6c2VjcmV0")) =
      (authenticate_teacher teachers0 "alice" "secret" ∅).1 := by
  refine ⟨by decide, by decide, ?_⟩
  exact path_a_b_agree_colon_free teachers0 "alice" "secret" "YWxpY2U6c2VjcmV0" ∅
    (by decide) (by decide)

/-- Claim C7: logout returns 200 and removes the claimed username from
the session set if and only if that username is currently logged in —
whatever password was submitted; otherwise it returns 400 and the state
is unchanged. -/
theorem logout_ignores_password (username pw pw' : String) (st : AppState) :
    ((logout username pw st).1.status = 200 ↔ username ∈ st.sessions)
  ∧ (username ∈ st.sessions →
       logout username pw st =
         (.ok s!"Logged out {username}", ⟨st.activities, st.sessions.erase username⟩))
  ∧ (username ∉ st.sessions →
       logout username pw st = (.error 400 "Not logged in", st))
  ∧ logout username pw st = logout username pw' st := by
  by_cases hm : username ∈ st.sessions
  · refine ⟨?_, fun _ => ?_, fun hn => absurd hm hn, ?_⟩ <;>
      simp [logout, hm, HttpResult.status]
  · refine ⟨?_, fun hn => absurd hn hm, fun _ => ?_, ?_⟩ <;>
      simp [logout, hm, HttpResult.status]

/-- Concrete runs of C7: alice is logged in and can log out with a bogus
password; bob is not logged in and gets 400 despite a valid password. -/
theorem logout_ignores_password_witness :
    "alice" ∈ (AppState.mk activities0 {"alice"}).sessions
  ∧ logout "alice" "totally-wrong" ⟨activities0, {"alice"}⟩ =
      (.ok "Logged out alice", ⟨activities0, ({"alice"} : Finset String).erase "alice"⟩)
  ∧ "bob" ∉ (AppState.mk activities0 {"alice"}).sessions
  ∧ logout "bob" "secret" ⟨activities0, {"alice"}⟩ = (.error 400 "Not logged in", ⟨activities0, {"alice"}⟩) := by
  refine ⟨by decide, ?_, by decide, ?_⟩
  · exact (logout_ignores_password "alice" "totally-wrong" "x" ⟨activities0, {"alice"}⟩).2.1
      (by decide)
  · exact (logout_ignores_password "bob" "secret" "x" ⟨activities0, {"alice"}⟩).2.2.1
      (by decide)

/-- Claim C8: Path B fails with 401 when the Authorization header is
absent, when its scheme is not case-insensitively "Basic", and when the
Base64 payload fails to decode; and whenever Path B fails, signup and
unregister leave the whole application state unchanged. -/
theorem require_teacher_failure_modes (teachers : List Teacher) (raw : String)
    (name email : String) (st : AppState) :
    require_teacher teachers none = .error (401, "Not authenticated")
  ∧ (strLower (partitionStr raw ' ').1 ≠ "basic" →
       ∃ d, require_teacher teachers (some raw) = .error (401, d))
  ∧ (strLower (partitionStr raw ' ').1 = "basic" →
       b64decodeStr (partitionStr raw ' ').2 = none →
       require_teacher teachers (some raw) = .error (401, "Invalid auth header"))
  ∧ (∀ header : Option String, ∀ e, require_teacher teachers header = .error e →
       (signup_for_activity teachers name email header st).2 = st
     ∧ (unregister_from_activity teachers name email header st).2 = st) := by
  refine ⟨rfl, fun hs => ?_, fun hs hd => ?_, fun header e he => ?_⟩
  · by_cases hr : raw = ""
    · exact ⟨"Not authenticated", by simp [require_teacher, hr]⟩
    · exact ⟨"Invalid auth scheme", by simp only [require_teacher, if_neg hr, if_pos hs]⟩
  · have hr : raw ≠ "" := by
      intro h
      rw [h] at hs
      have : strLower (partitionStr "" ' ').1 ≠ "basic" := by decide
      exact this hs
    simp only [require_teacher, if_neg hr, if_neg (not_not_intro hs), hd]
  · have h1 : (signup_for_activity teachers name email header st).2 = st := by
      simp only [signup_for_activity, he]
    have h2 : (unregister_from_activity teachers name email header st).2 = st := by
      simp only [unregister_from_activity, he]
    exact ⟨h1, h2⟩

/-- Concrete runs of C8: a Bearer scheme, an undecodable Basic payload
(a single data character is an invalid base64 quantity), and a missing
header all fail with 401 and mutate nothing. -/
theorem require_teacher_failure_modes_witness :
    strLower (partitionStr "Bearer xyz" ' ').1 ≠ "basic"
  ∧ (∃ d, require_teacher teachers0 (some "Bearer xyz") = .error (401, d))
  ∧ strLower (partitionStr "Basic A" ' ').1 = "basic"
  ∧ b64decodeStr (partitionStr "Basic A" ' ').2 = none
  ∧ require_teacher teachers0 (some "Basic A") = .error (401, "Invalid auth header")
  ∧ require_teacher teachers0 none = .error (401, "Not authenticated")
  ∧ (signup_for_activity teachers0 "Chess Club" "x@mergington.edu" none st0).2 = st0
  ∧ (unregister_from_activity teachers0 "Chess Club" "x@mergington.edu" none st0).2 = st0 := by
  have h := require_teacher_failure_modes teachers0 "Bearer xyz" "Chess Club" "x@mergington.edu" st0
  have h2 := require_teacher_failure_modes teachers0 "Basic A" "Chess Club" "x@mergington.edu" st0
  refine ⟨by decide, h.2.1 (by decide), by decide, by decide,
    h2.2.2.1 (by decide) (by decide), h.1, ?_, ?_⟩
  · exact (h.2.2.2 none (401, "Not authenticated") (by decide)).1
  · exact (h.2.2.2 none (401, "Not authenticated") (by decide)).2

/-- The two states a signup can leave behind: unchanged, or exactly the
target activity extended by the new email. -/
theorem signup_state_cases (teachers : List Teacher) (name email : String)
    (header : Option String) (st : AppState) :
    (signup_for_activity teachers name email header st).2 = st
  ∨ ∃ a, lookupActivity st.activities name = some a
      ∧ email ∉ a.participants
      ∧ (signup_for_activity teachers name email header st).2 =
          { st with activities := (updateActivity st.activities name
              { a with participants := a.participants ++ [email] }) } := by
  cases hr : require_teacher teachers header with
  | error e => left; simp only [signup_for_activity, hr]
  | ok t =>
    cases ha : lookupActivity st.activities name with
    | none => left; simp only [signup_for_activity, hr, ha]
    | some a =>
      by_cases hm : email ∈ a.participants
      · left; simp only [signup_for_activity, hr, ha, if_pos hm]
      · right; exact ⟨a, rfl, hm, by simp only [signup_for_activity, hr, ha, if_neg hm]⟩

/-- The two states an unregister can leave behind: unchanged, or exactly
the target activity with the first occurrence of the email erased. -/
theorem unregister_state_cases (teachers : List Teacher) (name email : String)
    (header : Option String) (st : AppState) :
    (unregister_from_activity teachers name email header st).2 = st
  ∨ ∃ a, lookupActivity st.activities name = some a
      ∧ email ∈ a.participants
      ∧ (unregister_from_activity teachers name email header st).2 =
          { st with activities := (updateActivity st.activities name
              { a with participants := a.participants.erase email }) } := by
  cases hr : require_teacher teachers header with
  | error e => left; simp only [unregister_from_activity, hr]
  | ok t =>
    cases ha : lookupActivity st.activities name with
    | none => left; simp only [unregister_from_activity, hr, ha]
    | some a =>
      by_cases hm : email ∈ a.participants
      · right
        exact ⟨a, rfl, hm, by simp only [unregister_from_activity, hr, ha,
          if_neg (not_not_intro hm)]⟩
      · left; simp only [unregister_from_activity, hr, ha, if_pos hm]

/-- The shared credential loop only ever returns the username it was
given. -/
theorem findTeacher_some_eq (ts : List Teacher) (u p r : String)
    (h : findTeacher ts u p = some r) : r = u := by
  induction ts with
  | nil => simp [findTeacher] at h
  | cons t ts ih =>
    by_cases hc : u = t.username ∧ p = t.password
    · simp only [findTeacher, if_pos hc, Option.some.injEq] at h
      exact h.symm
    · simp only [findTeacher, if_neg hc] at h
      exact ih h

/-- Claim C9: if every activity's participants list is duplicate-free,
every signup and unregister call — succeeding or failing — preserves
that invariant. -/
theorem nodup_participants_preserved (teachers : List Teacher) (name email : String)
    (header : Option String) (st : AppState)
    (h : ∀ q ∈ st.activities, q.2.participants.Nodup) :
    (∀ q ∈ (signup_for_activity teachers name email header st).2.activities,
       q.2.participants.Nodup)
  ∧ (∀ q ∈ (unregister_from_activity teachers name email header st).2.activities,
       q.2.participants.Nodup) := by
  constructor
  · rcases signup_state_cases teachers name email header st with hst | ⟨a, ha, hm, hst⟩
    · rw [hst]; exact h
    · rw [hst]
      intro q hq
      rcases mem_updateActivity _ _ _ _ hq with h2 | h2
      · rw [h2]
        have hna := h _ (lookupActivity_mem _ _ _ ha)
        simp [List.nodup_append, hna, hm]
      · exact h q h2
  · rcases unregister_state_cases teachers name email header st with hst | ⟨a, ha, hm, hst⟩
    · rw [hst]; exact h
    · rw [hst]
      intro q hq
      rcases mem_updateActivity _ _ _ _ hq with h2 | h2
      · rw [h2]
        have hna := h _ (lookupActivity_mem _ _ _ ha)
        exact hna.erase email
      · exact h q h2

/-- Concrete run of C9: the initial registry is duplicate-free and stays
so across a successful signup and a successful unregister. -/
theorem nodup_participants_preserved_witness :
    (∀ q ∈ st0.activities, q.2.participants.Nodup)
  ∧ (∀ q ∈ (signup_for_activity teachers0 "Chess Club" "isabella@mergington.edu" header0 st0).2.activities,
       q.2.participants.Nodup)
  ∧ (∀ q ∈ (unregister_from_activity teachers0 "Chess Club" "michael@mergington.edu" header0 st0).2.activities,
       q.2.participants.Nodup) := by
  refine ⟨by decide, ?_, ?_⟩
  · exact (nodup_participants_preserved teachers0 "Chess Club" "isabella@mergington.edu"
      header0 st0 (by decide)).1
  · exact (nodup_participants_preserved teachers0 "Chess Club" "michael@mergington.edu"
      header0 st0 (by decide)).2

/-- Claim C10: a signup or unregister request for activity X changes at
most X's participants list — the session set is untouched (Path B never
logs anyone in, unlike Path A which inserts the username on success),
every other activity's record is unchanged, and X's description,
schedule and max_participants are unchanged. -/
theorem mutation_frame (teachers : List Teacher) (name email : String)
    (header : Option String) (st : AppState) :
    ((signup_for_activity teachers name email header st).2.sessions = st.sessions)
  ∧ ((unregister_from_activity teachers name email header st).2.sessions = st.sessions)
  ∧ (∀ k, k ≠ name →
       lookupActivity (signup_for_activity teachers name email header st).2.activities k =
         lookupActivity st.activities k)
  ∧ (∀ k, k ≠ name →
       lookupActivity (unregister_from_activity teachers name email header st).2.activities k =
         lookupActivity st.activities k)
  ∧ (∀ a, lookupActivity st.activities name = some a →
       ∀ a', lookupActivity
           (signup_for_activity teachers name email header st).2.activities name = some a' →
         a'.description = a.description ∧ a'.schedule = a.schedule ∧
           a'.max_participants = a.max_participants)
  ∧ (∀ a, lookupActivity st.activities name = some a →
       ∀ a', lookupActivity
           (unregister_from_activity teachers name email header st).2.activities name = some a' →
         a'.description = a.description ∧ a'.schedule = a.schedule ∧
           a'.max_participants = a.max_participants)
  ∧ (∀ u p s r, findTeacher teachers u p = some r →
       (authenticate_teacher teachers u p s).2 = insert u s) := by
  refine ⟨?_, ?_, ?_, ?_, ?_, ?_, ?_⟩
  · rcases signup_state_cases teachers name email header st with hs | ⟨b, hb, hmb, hs⟩ <;>
      rw [hs]
  · rcases unregister_state_cases teachers name email header st with hu | ⟨c, hc, hmc, hu⟩ <;>
      rw [hu]
  · intro k hk
    rcases signup_state_cases teachers name email header st with hs | ⟨b, hb, hmb, hs⟩
    · rw [hs]
    · rw [hs]
      exact lookupActivity_updateActivity_ne st.activities name k _ hk
  · intro k hk
    rcases unregister_state_cases teachers name email header st with hu | ⟨c, hc, hmc, hu⟩
    · rw [hu]
    · rw [hu]
      exact lookupActivity_updateActivity_ne st.activities name k _ hk
  · intro a ha a' ha'
    rcases signup_state_cases teachers name email header st with hs | ⟨b, hb, hmb, hs⟩
    · rw [hs] at ha'
      have h2 : a = a' := Option.some.inj (ha.symm.trans ha')
      subst h2
      exact ⟨rfl, rfl, rfl⟩
    · rw [hs] at ha'
      have hupd := lookupActivity_updateActivity_self st.activities name b
        { b with participants := b.participants ++ [email] } hb
      have h1 : { b with participants := b.participants ++ [email] } = a' :=
        Option.some.inj (hupd.symm.trans ha')
      have h2 : b = a := Option.some.inj (hb.symm.trans ha)
      rw [← h1, h2]
      exact ⟨rfl, rfl, rfl⟩
  · intro a ha a' ha'
    rcases unregister_state_cases teachers name email header st with hu | ⟨c, hc, hmc, hu⟩
    · rw [hu] at ha'
      have h2 : a = a' := Option.some.inj (ha.symm.trans ha')
      subst h2
      exact ⟨rfl, rfl, rfl⟩
    · rw [hu] at ha'
      have hupd := lookupActivity_updateActivity_self st.activities name c
        { c with participants := c.participants.erase email } hc
      have h1 : { c with participants := c.participants.erase email } = a' :=
        Option.some.inj (hupd.symm.trans ha')
      have h2 : c = a := Option.some.inj (hc.symm.trans ha)
      rw [← h1, h2]
      exact ⟨rfl, rfl, rfl⟩
  · intro u p s r hf
    have hr : r = u := findTeacher_some_eq teachers u p r hf
    subst hr
    simp [authenticate_teacher, hf]

/-- Concrete run of C10: alice's signup of isabella to Chess Club leaves
the session set and the Math Club record untouched, keeps Chess Club's
metadata, and Path A by contrast inserts alice into the session set. -/
theorem mutation_frame_witness :
    (signup_for_activity teachers0 "Chess Club" "isabella@mergington.edu" header0 st0).2.sessions =
      st0.sessions
  ∧ (unregister_from_activity teachers0 "Chess Club" "isabella@mergington.edu" header0 st0).2.sessions =
      st0.sessions
  ∧ ("Math Club" : String) ≠ "Chess Club"
  ∧ lookupActivity
      (signup_for_activity teachers0 "Chess Club" "isabella@mergington.edu" header0 st0).2.activities
      "Math Club" = lookupActivity st0.activities "Math Club"
  ∧ lookupActivity st0.activities "Chess Club" = some chessClub
  ∧ lookupActivity
      (signup_for_activity teachers0 "Chess Club" "isabella@mergington.edu" header0 st0).2.activities
      "Chess Club" =
      some { chessClub with participants := chessClub.participants ++ ["isabella@mergington.edu"] }
  ∧ ({ chessClub with
       participants := chessClub.participants ++ ["isabella@mergington.edu"] }.description =
        chessClub.description
    ∧ { chessClub with
        participants := chessClub.participants ++ ["isabella@mergington.edu"] }.schedule =
        chessClub.schedule
    ∧ { chessClub with
        participants := chessClub.participants ++ ["isabella@mergington.edu"] }.max_participants =
        chessClub.max_participants)
  ∧ findTeacher teachers0 "alice" "secret" = some "alice"
  ∧ (authenticate_teacher teachers0 "alice" "secret" ∅).2 = insert "alice" ∅ := by
  have h := mutation_frame teachers0 "Chess Club" "isabella@mergington.edu" header0 st0
  refine ⟨h.1, h.2.1, by decide, h.2.2.1 "Math Club" (by decide), by decide, by decide,
    ?_, by decide, ?_⟩
  · exact h.2.2.2.2.1 chessClub (by decide) _ (by decide)
  · exact h.2.2.2.2.2.2 "alice" "secret" ∅ "alice" (by decide)

/-- Fidelity check for the non-strict decoder: `b64decode` discards
characters outside the alphabet, so the payload `"%%%%"` decodes to the
empty string rather than failing; `require_teacher` then runs the
credential loop on `("", "")` — rejecting against the normal store, but
actually authenticating against a store holding an empty credential
pair. -/
theorem b64_discards_invalid_chars :
    b64decodeStr "%%%%" = some ""
  ∧ require_teacher teachers0 (some "Basic %%%%") = .error (401, "Invalid credentials")
  ∧ require_teacher [⟨"", ""⟩] (some "Basic %%%%") = .ok "" := by
  decide
